import Mathlib

set_option maxHeartbeats 1000000

/-! Shallow embedding of the client-side download controller
(static/js/app.js) of the youtube-songs-download repository, together
with proofs of its stated behavioural properties.  Network activity and
timer scheduling are made explicit: a fetch of the info endpoint is an
oracle value consumed per attempt, and every externally visible action
is recorded in an event trace. -/

/-- Whitespace class of the JavaScript regexp class \s (also the class
trimmed by String.prototype.trim). -/
def isJsSpace (c : Char) : Bool :=
  let n := c.toNat
  n = 0x9 || n = 0xa || n = 0xb || n = 0xc || n = 0xd || n = 0x20 || n = 0xa0 ||
  n = 0x1680 || (0x2000 ≤ n && n ≤ 0x200a) || n = 0x2028 || n = 0x2029 ||
  n = 0x202f || n = 0x205f || n = 0x3000 || n = 0xfeff

/-- Drop trailing JavaScript whitespace from a character list. -/
def dropTrailWS (l : List Char) : List Char := (l.reverse.dropWhile isJsSpace).reverse

/-- JavaScript String.prototype.trim on a character list. -/
def jsTrimL (l : List Char) : List Char := dropTrailWS (l.dropWhile isJsSpace)

/-- JavaScript String.prototype.trim. -/
def jsTrimS (s : String) : String := String.mk (jsTrimL s.data)

/-- JavaScript a || b for a string a: the empty string is falsy. -/
def jsOrS (s d : String) : String := if s = "" then d else s

/-- JavaScript a || b where a is a possibly missing string field. -/
def jsOrOpt (o : Option String) (d : String) : String :=
  match o with
  | none => d
  | some s => if s = "" then d else s

/-- Upper-case hexadecimal digit for a value below 16. -/
def hexDigit (n : Nat) : Char := if n < 10 then Char.ofNat (48 + n) else Char.ofNat (55 + n)

/-- UTF-8 byte sequence of one character, as percent-encoded by
JavaScript encodeURIComponent. -/
def utf8Bytes (c : Char) : List Nat :=
  let n := c.toNat
  if n < 0x80 then [n]
  else if n < 0x800 then [0xc0 + n / 0x40, 0x80 + n % 0x40]
  else if n < 0x10000 then [0xe0 + n / 0x1000, 0x80 + n / 0x40 % 0x40, 0x80 + n % 0x40]
  else [0xf0 + n / 0x40000, 0x80 + n / 0x1000 % 0x40, 0x80 + n / 0x40 % 0x40, 0x80 + n % 0x40]

/-- Characters that JavaScript encodeURIComponent leaves unescaped
(letters, digits, and - _ . ! ~ * apostrophe parentheses). -/
def uriUnreserved (c : Char) : Bool :=
  c.isAlpha || c.isDigit || c = '-' || c = '_' || c = '.' || c = '!' || c = '~' ||
  c = '*' || c.toNat = 39 || c = '(' || c = ')'

/-- Percent-encoding of one character. -/
def pctEncodeChar (c : Char) : List Char :=
  if uriUnreserved c then [c]
  else List.flatten ((utf8Bytes c).map (fun b => ['%', hexDigit (b / 16), hexDigit (b % 16)]))

/-- JavaScript encodeURIComponent. -/
def encodeURIComponent (s : String) : String :=
  String.mk (List.flatten (s.data.map pctEncodeChar))

/-- Does pat occur at the start of the second list? -/
def beginsWith : List Char → List Char → Bool
  | [], _ => true
  | _ :: _, [] => false
  | p :: ps, h :: hs => (p = h) && beginsWith ps hs

/-- Does pat occur anywhere in the second list (RegExp.test for a
literal-substring pattern)? -/
def containsSub (pat : List Char) : List Char → Bool
  | [] => pat.isEmpty
  | c :: t => beginsWith pat (c :: t) || containsSub pat t

/-- YOUTUBE_PATTERNS from app.js: each regexp is a literal substring
with the /i flag. -/
def YOUTUBE_PATTERNS : List String :=
  ["youtube.com/watch", "youtu.be/", "youtube.com/shorts/", "youtube.com/embed/",
   "youtube.com/v/", "music.youtube.com"]

/-- validateUrl from app.js: some pattern matches, case-insensitively
(the /i flag is realised by lower-casing the url; the patterns are
already lower case). -/
def validateUrl (url : String) : Bool :=
  YOUTUBE_PATTERNS.any (fun p => containsSub p.data (url.data.map Char.toLower))

/-- toString().padStart(2, '0') as used by formatDuration. -/
def padStart2 (s : String) : String := String.mk (List.replicate (2 - s.length) '0') ++ s

/-- formatDuration from app.js.  The argument is the possibly missing
numeric duration field (none models undefined, which is falsy). -/
def formatDuration : Option Int → String
  | none => "0:00"
  | some s =>
    if s ≤ 0 then "0:00"
    else
      let n := s.toNat
      let hours := n / 3600
      let mins := n % 3600 / 60
      let secs := n % 60
      if hours > 0 then
        toString hours ++ ":" ++ padStart2 (toString mins) ++ ":" ++ padStart2 (toString secs)
      else
        toString mins ++ ":" ++ padStart2 (toString secs)

/-- The character class removed by sanitizeFilename:
the regexp class that lists nine punctuation characters and x00-x1f. -/
def forbiddenChar (c : Char) : Bool :=
  c = '<' || c = '>' || c = ':' || c = '"' || c = '/' || c = '\\' || c = '|' ||
  c = '?' || c = '*' || c.toNat ≤ 0x1f

/-- replace of the regexp for one-or-more whitespace by a single space:
each maximal whitespace run becomes one space character. -/
def collapseWS : List Char → List Char
  | [] => []
  | [c] => [if isJsSpace c then ' ' else c]
  | a :: b :: t =>
    if isJsSpace a && isJsSpace b then collapseWS (b :: t)
    else (if isJsSpace a then ' ' else a) :: collapseWS (b :: t)

/-- sanitizeFilename from app.js; none models a missing title. -/
def sanitizeFilename : Option String → String
  | none => "download"
  | some t =>
    if t = "" then "download"
    else
      let cleaned := jsTrimL ((collapseWS (t.data.filter (fun c => !forbiddenChar c))).take 100)
      if cleaned = [] then "download" else String.mk cleaned

/-- Parsed JSON body of the info endpoint (the structured-data shape the
controller reads; every field may be missing). -/
structure JsonBody where
  title : Option String
  channel : Option String
  duration : Option Int
  thumbnail : Option String
  error : Option String
  deriving Repr, DecidableEq

/-- Network-level outcome of one fetch of the info endpoint: the promise
rejects with a message, or a response arrives with its HTTP ok flag and
a body that parses as JSON (some) or fails to parse (none). -/
inductive FetchOutcome where
  | reject (msg : String)
  | resp (ok : Bool) (body : Option JsonBody)
  deriving Repr, DecidableEq

/-- Behaviour of the download endpoint.  The client code never inspects
it (the hidden iframe gets no load or error handler). -/
inductive DLBehavior where
  | serves
  | fails
  deriving Repr, DecidableEq

/-- fetchVideoInfo from app.js as a function of the network outcome:
a rejected fetch propagates; a body that does not parse becomes the
generic server-error message; a non-ok response surfaces the body's
error field when present (and non-empty, per JavaScript ||), else the
generic failed-to-fetch message; an ok parsed body is returned as is. -/
def fetchVideoInfo : FetchOutcome → Except String JsonBody
  | .reject m => .error m
  | .resp _ none => .error "Server error. Please try again."
  | .resp ok (some b) =>
    if ok then .ok b else .error (jsOrOpt b.error "Failed to fetch video info")

/-- The DOM state the controller reads and writes. -/
structure UIState where
  isProcessing : Bool
  urlInputValue : String
  urlInputDisabled : Bool
  urlInputErrorClass : Bool
  downloadBtnDisabled : Bool
  downloadBtnLoading : Bool
  inputErrorText : String
  inputErrorVisible : Bool
  inputHintHidden : Bool
  statusHidden : Bool
  statusType : String
  statusTitle : String
  statusMessage : String
  progressHidden : Bool
  progressStage : String
  progressPercent : Nat
  progressFillWidth : Nat
  songInfoHidden : Bool
  songTitle : String
  songChannel : String
  songDurationText : String
  songThumbSrc : String
  deriving Repr, DecidableEq

/-- setProcessingState from app.js. -/
def setProcessingState (processing : Bool) (s : UIState) : UIState :=
  { s with isProcessing := processing, urlInputDisabled := processing,
           downloadBtnDisabled := processing, downloadBtnLoading := processing }

/-- showProgress from app.js. -/
def showProgress (stage : String) (percent : Nat) (s : UIState) : UIState :=
  { s with progressHidden := false, progressStage := stage,
           progressPercent := percent, progressFillWidth := percent }

/-- hideProgress from app.js. -/
def hideProgress (s : UIState) : UIState :=
  { s with progressHidden := true, progressFillWidth := 0 }

/-- showSongInfo from app.js (the thumbnail load or error handlers only
toggle the image's own display and are elided). -/
def showSongInfo (b : JsonBody) (s : UIState) : UIState :=
  { s with songThumbSrc := jsOrOpt b.thumbnail "",
           songTitle := jsOrOpt b.title "Unknown",
           songChannel := jsOrOpt b.channel "Unknown",
           songDurationText := formatDuration b.duration,
           songInfoHidden := false }

/-- hideSongInfo from app.js. -/
def hideSongInfo (s : UIState) : UIState := { s with songInfoHidden := true }

/-- showStatus from app.js (showSuccess, showError and showInfo are the
instances with kind success, error and info). -/
def showStatus (kind title message : String) (s : UIState) : UIState :=
  { s with statusType := kind, statusTitle := title,
           statusMessage := message, statusHidden := false }

/-- hideStatus from app.js. -/
def hideStatus (s : UIState) : UIState := { s with statusHidden := true }

/-- showInputError from app.js. -/
def showInputError (message : String) (s : UIState) : UIState :=
  { s with urlInputErrorClass := true, inputErrorText := message,
           inputErrorVisible := true, inputHintHidden := true }

/-- clearInputError from app.js. -/
def clearInputError (s : UIState) : UIState :=
  { s with urlInputErrorClass := false, inputErrorVisible := false,
           inputHintHidden := false }

/-- resetForm from app.js: hide status, progress and song info and clear
the input error; the url input's content is left alone. -/
def resetForm (s : UIState) : UIState :=
  clearInputError (hideSongInfo (hideProgress (hideStatus s)))

/-- Externally visible events of an attempt, in order: a request to the
info endpoint (with its attempt index), a sleep, a progress update, a
status-panel update, insertion of the hidden download iframe. -/
inductive Ev where
  | fetchInfo (attempt : Nat)
  | sleepEv (ms : Nat)
  | progressEv (stage : String) (pct : Nat)
  | statusEv (kind title message : String)
  | frameInsert (src : String)
  deriving Repr, DecidableEq

/-- Result of triggerDownload: the iframe's source, the fact that it was
inserted, the delays (in ms) after which the returned promise resolves
and after which the iframe is removed, and the promise's outcome. -/
structure TDResult where
  frameSrc : String
  frameInserted : Bool
  resolveAtMs : Nat
  removeAtMs : Nat
  outcome : Except String Unit
  deriving Repr

/-- triggerDownload from app.js.  The endpoint argument is the download
endpoint's behaviour; the code attaches no handler to the iframe, so the
result cannot depend on it, and the promise executor only ever calls
resolve (after 1500 ms), never reject.  The iframe removal is scheduled
inside that callback, 120000 ms later. -/
def triggerDownload (url : String) (title : String) (endpoint : DLBehavior) : TDResult :=
  let downloadUrl := "/api/download?url=" ++ encodeURIComponent url
  { frameSrc := downloadUrl
    frameInserted := true
    resolveAtMs := 1500
    removeAtMs := 1500 + 120000
    outcome := Except.ok () }

/-- The retry loop of startDownload from app.js: retries starts at 2, so
the fuel (attempts still allowed) starts at 3.  The oracle gives the
network outcome of the i-th request.  On a failure with fuel left, the
loop shows Retrying at 10 percent and sleeps 1000 ms; the error of the
last attempt is the one reported.  Returns the loop result, the UI state
after the loop, and the event trace. -/
def fetchLoop (oracle : Nat → FetchOutcome) :
    Nat → Nat → UIState → Except String JsonBody × UIState × List Ev
  | _, 0, s => (.error "Could not get video info", s, [])
  | i, 1, s => (fetchVideoInfo (oracle i), s, [.fetchInfo i])
  | i, fuel + 2, s =>
    match fetchVideoInfo (oracle i) with
    | .ok b => (.ok b, s, [.fetchInfo i])
    | .error _ =>
      let s1 := showProgress "Retrying..." 10 s
      let r := fetchLoop oracle (i + 1) (fuel + 1) s1
      (r.1, r.2.1, .fetchInfo i :: .progressEv "Retrying..." 10 :: .sleepEv 1000 :: r.2.2)

/-- Status message of the long-video notice for a fetched body. -/
def longVideoMsg (b : JsonBody) : String :=
  "This video is " ++ formatDuration b.duration ++ ". Download may take a few minutes."

/-- The comparison duration greater than 900 of app.js; a missing field
compares false in JavaScript. -/
def durOver900 (d : Option Int) : Bool :=
  match d with
  | none => false
  | some v => v > 900

/-- startDownload from app.js, including the finally block and the
deferred callbacks (success status after 500 ms, resetForm after
4000 ms), applied in timer order; the returned state is the settled one.
The trace records network activity and transient UI stages in order;
the iframe's removal (121500 ms after insertion) is not an event of the
attempt itself and is kept in the TDResult of triggerDownload. -/
def startDownload (url : String) (oracle : Nat → FetchOutcome)
    (endpoint : DLBehavior) (s0 : UIState) : UIState × List Ev :=
  let s := showProgress "Fetching video info..." 5
             (hideSongInfo (hideStatus (setProcessingState true s0)))
  let intro : List Ev := [.progressEv "Fetching video info..." 5]
  match fetchLoop oracle 0 3 s with
  | (.error msg, s1, tr) =>
    let emsg := jsOrS msg "Please try again."
    let s2 := setProcessingState false
                (hideSongInfo (hideProgress (showStatus "error" "Download failed" emsg s1)))
    (s2, intro ++ tr ++ [.statusEv "error" "Download failed" emsg])
  | (.ok b, s1, tr) =>
    let s2 := showProgress "Preparing download..." 30 (showSongInfo b s1)
    let infoEvs : List Ev :=
      if durOver900 b.duration then
        [.statusEv "info" "Long video detected" (longVideoMsg b)]
      else []
    let s3 := if durOver900 b.duration then
                showStatus "info" "Long video detected" (longVideoMsg b) s2
              else s2
    let s4 := showProgress "Downloading..." 60 s3
    let td := triggerDownload url (b.title.getD "") endpoint
    let s5 := showProgress "Complete!" 100 s4
    let s6 := setProcessingState false s5
    let s7 := hideProgress
                (showStatus "success" "Download started!" "Check your browser downloads." s6)
    let s8 := resetForm s7
    (s8, intro ++ tr ++ [.progressEv "Preparing download..." 30] ++ infoEvs ++
         [.progressEv "Downloading..." 60, .frameInsert td.frameSrc,
          .progressEv "Complete!" 100,
          .statusEv "success" "Download started!" "Check your browser downloads."])

/-- handleSubmit from app.js (preventDefault and event wiring elided;
the submitted text is the input field's current value). -/
def handleSubmit (s : UIState) (oracle : Nat → FetchOutcome)
    (endpoint : DLBehavior) : UIState × List Ev :=
  if s.isProcessing then (s, [])
  else
    let url := jsTrimS s.urlInputValue
    if url = "" then (showInputError "Please enter a YouTube link" s, [])
    else if validateUrl url then startDownload url oracle endpoint s
    else (showInputError "Please enter a valid YouTube link" s, [])

/-- The page's initial UI state: idle, empty input, panels hidden. -/
def initState : UIState :=
  { isProcessing := false, urlInputValue := "", urlInputDisabled := false,
    urlInputErrorClass := false, downloadBtnDisabled := false, downloadBtnLoading := false,
    inputErrorText := "", inputErrorVisible := false, inputHintHidden := false,
    statusHidden := true, statusType := "status", statusTitle := "", statusMessage := "",
    progressHidden := true, progressStage := "", progressPercent := 0, progressFillWidth := 0,
    songInfoHidden := true, songTitle := "", songChannel := "", songDurationText := "",
    songThumbSrc := "" }

/-- All UI state outside the inline input-error presentation (the error
text, its visibility, the input's error styling and the hint's
visibility) agrees between s and t. -/
def sameOutsideInputError (s t : UIState) : Prop :=
  t.isProcessing = s.isProcessing ∧ t.urlInputValue = s.urlInputValue ∧
  t.urlInputDisabled = s.urlInputDisabled ∧ t.downloadBtnDisabled = s.downloadBtnDisabled ∧
  t.downloadBtnLoading = s.downloadBtnLoading ∧ t.statusHidden = s.statusHidden ∧
  t.statusType = s.statusType ∧ t.statusTitle = s.statusTitle ∧
  t.statusMessage = s.statusMessage ∧ t.progressHidden = s.progressHidden ∧
  t.progressStage = s.progressStage ∧ t.progressPercent = s.progressPercent ∧
  t.progressFillWidth = s.progressFillWidth ∧ t.songInfoHidden = s.songInfoHidden ∧
  t.songTitle = s.songTitle ∧ t.songChannel = s.songChannel ∧
  t.songDurationText = s.songDurationText ∧ t.songThumbSrc = s.songThumbSrc

/-- A concrete successful info body used by closed witnesses. -/
def bodyA : JsonBody :=
  { title := some "Song", channel := some "Chan", duration := some 100,
    thumbnail := none, error := none }

/-- A concrete long-video info body (duration 1000) for closed witnesses. -/
def body1000 : JsonBody :=
  { title := some "Song", channel := some "Chan", duration := some 1000,
    thumbnail := none, error := none }

/-- A concrete non-ok response body carrying a server error message. -/
def bodyQuota : JsonBody :=
  { title := none, channel := none, duration := none,
    thumbnail := none, error := some "quota exceeded" }

theorem containsSub_append_left (pat a b : List Char)
    (h : containsSub pat b = true) : containsSub pat (a ++ b) = true := by
  induction a with
  | nil => simpa using h
  | cons c t ih => simp [containsSub, ih]

theorem startDownload_resets (url : String) (oracle : Nat → FetchOutcome)
    (endpoint : DLBehavior) (s : UIState) :
    (startDownload url oracle endpoint s).1.isProcessing = false ∧
    (startDownload url oracle endpoint s).1.urlInputDisabled = false ∧
    (startDownload url oracle endpoint s).1.downloadBtnDisabled = false ∧
    (startDownload url oracle endpoint s).1.downloadBtnLoading = false := by
  rcases hfl : fetchLoop oracle 0 3 (showProgress "Fetching video info..." 5
      (hideSongInfo (hideStatus (setProcessingState true s)))) with ⟨res, s1, tr⟩
  cases res with
  | error m =>
    simp only [startDownload, hfl]
    simp [setProcessingState]
  | ok b =>
    simp only [startDownload, hfl]
    simp [setProcessingState, resetForm, clearInputError, hideSongInfo, hideProgress,
          hideStatus, showStatus, showProgress, showSongInfo]

theorem fetchInfo_mem_fetchLoop (oracle : Nat → FetchOutcome) :
    ∀ fuel i s, 0 < fuel → Ev.fetchInfo i ∈ (fetchLoop oracle i fuel s).2.2
  | 0, _, _, h => absurd h (by omega)
  | 1, i, s, _ => by simp [fetchLoop]
  | fuel + 2, i, s, _ => by
    cases hf : fetchVideoInfo (oracle i) with
    | ok b => simp [fetchLoop, hf]
    | error e => simp [fetchLoop, hf]

theorem fetchLoop_keeps_url (oracle : Nat → FetchOutcome) :
    ∀ fuel i s, ((fetchLoop oracle i fuel s).2.1).urlInputValue = s.urlInputValue
  | 0, _, _ => rfl
  | 1, _, _ => rfl
  | fuel + 2, i, s => by
    cases hf : fetchVideoInfo (oracle i) with
    | ok b => simp [fetchLoop, hf]
    | error e =>
      have h2 := fetchLoop_keeps_url oracle (fuel + 1) (i + 1)
        (showProgress "Retrying..." 10 s)
      simp only [fetchLoop, hf]
      simpa [showProgress] using h2

theorem fetchInfo_mem_startDownload (url : String) (oracle : Nat → FetchOutcome)
    (endpoint : DLBehavior) (s : UIState) :
    Ev.fetchInfo 0 ∈ (startDownload url oracle endpoint s).2 := by
  have hmem := fetchInfo_mem_fetchLoop oracle 3 0 (showProgress "Fetching video info..." 5
      (hideSongInfo (hideStatus (setProcessingState true s)))) (by omega)
  rcases hfl : fetchLoop oracle 0 3 (showProgress "Fetching video info..." 5
      (hideSongInfo (hideStatus (setProcessingState true s)))) with ⟨res, s1, tr⟩
  rw [hfl] at hmem
  cases res with
  | error m =>
    simp only [startDownload, hfl]
    simp [hmem]
  | ok b =>
    simp only [startDownload, hfl]
    simp [hmem]

/-- C1: validateUrl accepts the allowed YouTube URL shapes (watch,
shorts, embed, youtu.be short link, music subdomain), case-insensitively
and without requiring a scheme or www. (matching is substring-style, so
any left extension of an accepted text is accepted), and it rejects the
empty string, a vimeo URL and plain text. -/
theorem validateUrl_spec :
    validateUrl "https://www.youtube.com/watch?v=abc123" = true ∧
    validateUrl "youtu.be/abc123" = true ∧
    validateUrl "https://youtube.com/shorts/abc123" = true ∧
    validateUrl "https://music.youtube.com/watch?v=abc123" = true ∧
    validateUrl "https://youtube.com/embed/abc123" = true ∧
    validateUrl "" = false ∧
    validateUrl "https://vimeo.com/123" = false ∧
    validateUrl "not a url" = false ∧
    validateUrl "HTTPS://WWW.YOUTUBE.COM/WATCH?V=ABC123" = true ∧
    validateUrl "youtube.com/watch?v=abc123" = true ∧
    validateUrl "www.youtube.com/shorts/abc123" = true ∧
    ∀ p u, validateUrl u = true → validateUrl (p ++ u) = true := by
  refine ⟨by decide, by decide, by decide, by decide, by decide, by decide, by decide,
         by decide, by decide, by decide, by decide, ?_⟩
  intro p u h
  unfold validateUrl at h ⊢
  rw [List.any_eq_true] at h ⊢
  obtain ⟨pat, hmem, hc⟩ := h
  refine ⟨pat, hmem, ?_⟩
  rw [String.data_append, List.map_append]
  exact containsSub_append_left _ _ _ hc

theorem validateUrl_spec_witness :
    validateUrl ("see this: " ++ "youtu.be/abc123") = true :=
  validateUrl_spec.2.2.2.2.2.2.2.2.2.2.2 "see this: " "youtu.be/abc123" (by decide)

/-- C2: a submit while processing changes nothing and issues no request;
an empty trimmed input shows the enter-a-link inline error and a
non-matching input the enter-a-valid-link inline error (two distinct
messages), in both cases with no request and no change outside the
inline input-error presentation. -/
theorem handleSubmit_precondition_failures :
    ∀ s oracle endpoint,
    (s.isProcessing = true → handleSubmit s oracle endpoint = (s, [])) ∧
    (s.isProcessing = false → jsTrimS s.urlInputValue = "" →
      handleSubmit s oracle endpoint = (showInputError "Please enter a YouTube link" s, []) ∧
      sameOutsideInputError s (showInputError "Please enter a YouTube link" s) ∧
      (showInputError "Please enter a YouTube link" s).inputErrorText =
        "Please enter a YouTube link" ∧
      (showInputError "Please enter a YouTube link" s).inputErrorVisible = true) ∧
    (s.isProcessing = false → jsTrimS s.urlInputValue ≠ "" →
      validateUrl (jsTrimS s.urlInputValue) = false →
      handleSubmit s oracle endpoint =
        (showInputError "Please enter a valid YouTube link" s, []) ∧
      sameOutsideInputError s (showInputError "Please enter a valid YouTube link" s) ∧
      (showInputError "Please enter a valid YouTube link" s).inputErrorText =
        "Please enter a valid YouTube link" ∧
      (showInputError "Please enter a valid YouTube link" s).inputErrorVisible = true) ∧
    ("Please enter a YouTube link" ≠ "Please enter a valid YouTube link") := by
  intro s oracle endpoint
  refine ⟨?_, ?_, ?_, by decide⟩
  · intro h; simp [handleSubmit, h]
  · intro h he
    refine ⟨by simp [handleSubmit, h, he], ?_, rfl, rfl⟩
    simp [sameOutsideInputError, showInputError]
  · intro h hne hv
    refine ⟨by simp [handleSubmit, h, hne, hv], ?_, rfl, rfl⟩
    simp [sameOutsideInputError, showInputError]

theorem handleSubmit_precondition_failures_witness :
    handleSubmit (setProcessingState true initState) (fun _ => .reject "x") .serves =
      (setProcessingState true initState, []) :=
  (handleSubmit_precondition_failures (setProcessingState true initState)
    (fun _ => .reject "x") .serves).1 (by decide)

/-- C4: fetchVideoInfo maps an unparseable body to the generic server
error message, a non-ok response to the server-supplied error message
whenever the body carries one (any non-empty message, per JavaScript ||;
for example quota exceeded) or else the generic failed-to-fetch
message, and returns an ok parsed body unchanged; in the controller a
persistent quota-exceeded failure ends in a visible error status whose
message is quota exceeded, with processing reset. -/
theorem fetchVideoInfo_error_mapping :
    (∀ ok : Bool, fetchVideoInfo (.resp ok none) = .error "Server error. Please try again.") ∧
    (∀ (b : JsonBody) (msg : String), b.error = some msg → msg ≠ "" →
      fetchVideoInfo (.resp false (some b)) = .error msg) ∧
    (∀ b : JsonBody, b.error = some "quota exceeded" →
      fetchVideoInfo (.resp false (some b)) = .error "quota exceeded") ∧
    (∀ b : JsonBody, b.error = none →
      fetchVideoInfo (.resp false (some b)) = .error "Failed to fetch video info") ∧
    (∀ b : JsonBody, fetchVideoInfo (.resp true (some b)) = .ok b) ∧
    (∀ (s : UIState) url endpoint (b : JsonBody), b.error = some "quota exceeded" →
      (startDownload url (fun _ => .resp false (some b)) endpoint s).1.statusType = "error" ∧
      (startDownload url (fun _ => .resp false (some b)) endpoint s).1.statusTitle =
        "Download failed" ∧
      (startDownload url (fun _ => .resp false (some b)) endpoint s).1.statusMessage =
        "quota exceeded" ∧
      (startDownload url (fun _ => .resp false (some b)) endpoint s).1.statusHidden = false ∧
      (startDownload url (fun _ => .resp false (some b)) endpoint s).1.isProcessing = false) := by
  refine ⟨fun _ => rfl, ?_, ?_, ?_, fun b => by simp [fetchVideoInfo], ?_⟩
  · intro b msg hb hmsg; simp [fetchVideoInfo, jsOrOpt, hb, hmsg]
  · intro b hb; simp [fetchVideoInfo, jsOrOpt, hb]
  · intro b hb; simp [fetchVideoInfo, jsOrOpt, hb]
  · intro s url endpoint b hb
    have hf : fetchVideoInfo (.resp false (some b)) = .error "quota exceeded" := by
      simp [fetchVideoInfo, jsOrOpt, hb]
    simp [startDownload, fetchLoop, hf, jsOrS, setProcessingState, hideSongInfo,
          hideProgress, showStatus, showProgress, hideStatus]

theorem fetchVideoInfo_error_mapping_witness :
    fetchVideoInfo (.resp false (some bodyQuota)) = .error "quota exceeded" :=
  fetchVideoInfo_error_mapping.2.1 bodyQuota "quota exceeded" rfl (by decide)

/-- C5: formatDuration renders 125 seconds as 2:05, 3725 seconds as
1:02:05, and a zero, missing or non-positive duration as 0:00. -/
theorem formatDuration_spec :
    formatDuration (some 125) = "2:05" ∧
    formatDuration (some 3725) = "1:02:05" ∧
    formatDuration (some 0) = "0:00" ∧
    formatDuration none = "0:00" ∧
    ∀ d : Int, d ≤ 0 → formatDuration (some d) = "0:00" := by
  refine ⟨by decide, by decide, by decide, rfl, ?_⟩
  intro d hd
  simp [formatDuration, hd]

theorem formatDuration_spec_witness : formatDuration (some (-5)) = "0:00" :=
  formatDuration_spec.2.2.2.2 (-5) (by decide)

/-- C3: with the retrying policy, a persistently failing metadata fetch
is attempted exactly 3 times, each retry preceded by a Retrying progress
update at 10 percent and a 1000 ms sleep, and only the last attempt's
error is surfaced (as the error status of the attempt); a success on any
attempt stops the retrying immediately. -/
theorem fetch_retry_policy :
    ∀ (oracle : Nat → FetchOutcome),
    (∀ m0 m1 m2, fetchVideoInfo (oracle 0) = .error m0 →
      fetchVideoInfo (oracle 1) = .error m1 → fetchVideoInfo (oracle 2) = .error m2 →
      (∀ s, fetchLoop oracle 0 3 s =
        (.error m2, showProgress "Retrying..." 10 (showProgress "Retrying..." 10 s),
         [.fetchInfo 0, .progressEv "Retrying..." 10, .sleepEv 1000,
          .fetchInfo 1, .progressEv "Retrying..." 10, .sleepEv 1000, .fetchInfo 2])) ∧
      (∀ url endpoint s,
        (startDownload url oracle endpoint s).1.statusType = "error" ∧
        (startDownload url oracle endpoint s).1.statusTitle = "Download failed" ∧
        (startDownload url oracle endpoint s).1.statusMessage = jsOrS m2 "Please try again." ∧
        (startDownload url oracle endpoint s).1.statusHidden = false)) ∧
    (∀ b s, fetchVideoInfo (oracle 0) = .ok b →
      fetchLoop oracle 0 3 s = (.ok b, s, [.fetchInfo 0])) ∧
    (∀ m0 b s, fetchVideoInfo (oracle 0) = .error m0 → fetchVideoInfo (oracle 1) = .ok b →
      fetchLoop oracle 0 3 s =
        (.ok b, showProgress "Retrying..." 10 s,
         [.fetchInfo 0, .progressEv "Retrying..." 10, .sleepEv 1000, .fetchInfo 1])) ∧
    (∀ m0 m1 b s, fetchVideoInfo (oracle 0) = .error m0 →
      fetchVideoInfo (oracle 1) = .error m1 → fetchVideoInfo (oracle 2) = .ok b →
      fetchLoop oracle 0 3 s =
        (.ok b, showProgress "Retrying..." 10 (showProgress "Retrying..." 10 s),
         [.fetchInfo 0, .progressEv "Retrying..." 10, .sleepEv 1000,
          .fetchInfo 1, .progressEv "Retrying..." 10, .sleepEv 1000, .fetchInfo 2])) := by
  intro oracle
  refine ⟨?_, ?_, ?_, ?_⟩
  · intro m0 m1 m2 h0 h1 h2
    have hloop : ∀ s : UIState, fetchLoop oracle 0 3 s =
        (.error m2, showProgress "Retrying..." 10 (showProgress "Retrying..." 10 s),
         [.fetchInfo 0, .progressEv "Retrying..." 10, .sleepEv 1000,
          .fetchInfo 1, .progressEv "Retrying..." 10, .sleepEv 1000, .fetchInfo 2]) := by
      intro s; simp [fetchLoop, h0, h1, h2]
    refine ⟨hloop, ?_⟩
    intro url endpoint s
    simp only [startDownload, hloop]
    simp [showStatus, hideProgress, hideSongInfo, setProcessingState]
  · intro b s h0; simp [fetchLoop, h0]
  · intro m0 b s h0 h1; simp [fetchLoop, h0, h1]
  · intro m0 m1 b s h0 h1 h2; simp [fetchLoop, h0, h1, h2]

theorem fetch_retry_policy_witness :
    fetchLoop (fun _ => .reject "boom") 0 3 initState =
      (.error "boom",
       showProgress "Retrying..." 10 (showProgress "Retrying..." 10 initState),
       [.fetchInfo 0, .progressEv "Retrying..." 10, .sleepEv 1000,
        .fetchInfo 1, .progressEv "Retrying..." 10, .sleepEv 1000, .fetchInfo 2]) :=
  ((fetch_retry_policy (fun _ => .reject "boom")).1 "boom" "boom" "boom"
    rfl rfl rfl).1 initState

/-- C6: on a successful first fetch, the long-video informational status
appears in the attempt's trace exactly when the fetched duration exceeds
900 seconds, and apart from that single optional event the trace (and in
particular the whole remainder of the sequence through the success
status) is the same either way; the attempt still completes with
processing reset. -/
theorem long_video_info_status :
    ∀ url oracle endpoint (s : UIState) (b : JsonBody),
      oracle 0 = FetchOutcome.resp true (some b) →
      (startDownload url oracle endpoint s).2 =
        [.progressEv "Fetching video info..." 5, .fetchInfo 0,
         .progressEv "Preparing download..." 30] ++
        (if durOver900 b.duration then
          [.statusEv "info" "Long video detected" (longVideoMsg b)]
         else []) ++
        [.progressEv "Downloading..." 60,
         .frameInsert ("/api/download?url=" ++ encodeURIComponent url),
         .progressEv "Complete!" 100,
         .statusEv "success" "Download started!" "Check your browser downloads."] ∧
      ((Ev.statusEv "info" "Long video detected" (longVideoMsg b)) ∈
          (startDownload url oracle endpoint s).2 ↔ durOver900 b.duration = true) ∧
      (startDownload url oracle endpoint s).1.isProcessing = false := by
  intro url oracle endpoint s b h
  have hf : fetchVideoInfo (oracle 0) = .ok b := by rw [h]; simp [fetchVideoInfo]
  have htr : (startDownload url oracle endpoint s).2 =
      [.progressEv "Fetching video info..." 5, .fetchInfo 0,
       .progressEv "Preparing download..." 30] ++
      (if durOver900 b.duration then
        [.statusEv "info" "Long video detected" (longVideoMsg b)]
       else []) ++
      [.progressEv "Downloading..." 60,
       .frameInsert ("/api/download?url=" ++ encodeURIComponent url),
       .progressEv "Complete!" 100,
       .statusEv "success" "Download started!" "Check your browser downloads."] := by
    simp [startDownload, fetchLoop, hf, triggerDownload]
  refine ⟨htr, ?_, ((startDownload_resets url oracle endpoint s).1)⟩
  rw [htr]
  by_cases hdur : durOver900 b.duration = true
  · simp [hdur]
  · simp only [Bool.not_eq_true] at hdur
    simp [hdur]

theorem long_video_info_status_witness :
    Ev.statusEv "info" "Long video detected" (longVideoMsg body1000) ∈
      (startDownload "youtu.be/a" (fun _ => .resp true (some body1000))
        .serves initState).2 :=
  (long_video_info_status "youtu.be/a" (fun _ => .resp true (some body1000))
    .serves initState body1000 rfl).2.1.mpr (by decide)

/-- C7: every attempt, successful or failed at any stage, ends with the
processing flag cleared and the input and the submit control re-enabled,
and a subsequent submission of a valid url from the settled state is
accepted (it reaches the network). -/
theorem processing_cleanup_invariant :
    (∀ url oracle endpoint s,
      (startDownload url oracle endpoint s).1.isProcessing = false ∧
      (startDownload url oracle endpoint s).1.urlInputDisabled = false ∧
      (startDownload url oracle endpoint s).1.downloadBtnDisabled = false ∧
      (startDownload url oracle endpoint s).1.downloadBtnLoading = false) ∧
    (∀ url oracle endpoint s u2 oracle2 endpoint2, jsTrimS u2 ≠ "" →
      validateUrl (jsTrimS u2) = true →
      Ev.fetchInfo 0 ∈
        (handleSubmit { (startDownload url oracle endpoint s).1 with urlInputValue := u2 }
          oracle2 endpoint2).2) := by
  refine ⟨startDownload_resets, ?_⟩
  intro url oracle endpoint s u2 oracle2 endpoint2 hne hval
  have hproc := (startDownload_resets url oracle endpoint s).1
  have hresolved : handleSubmit
      { (startDownload url oracle endpoint s).1 with urlInputValue := u2 }
      oracle2 endpoint2 =
      startDownload (jsTrimS u2) oracle2 endpoint2
        { (startDownload url oracle endpoint s).1 with urlInputValue := u2 } := by
    simp [handleSubmit, hproc, hne, hval]
  rw [hresolved]
  exact fetchInfo_mem_startDownload _ _ _ _

theorem processing_cleanup_invariant_witness :
    Ev.fetchInfo 0 ∈
      (handleSubmit
        { (startDownload "youtu.be/abc" (fun _ => .resp true (some bodyA))
            .serves initState).1 with urlInputValue := "youtu.be/abc" }
        (fun _ => .resp true (some bodyA)) .serves).2 :=
  processing_cleanup_invariant.2 "youtu.be/abc" (fun _ => .resp true (some bodyA))
    .serves initState "youtu.be/abc" (fun _ => .resp true (some bodyA)) .serves
    (by decide) (by decide)

/-- C8: resetForm hides the status, progress and song-info panels and
clears the inline input error, but never changes the url input's
content; accordingly the settled state of any attempt keeps the typed
url unchanged. -/
theorem resetForm_frame :
    (∀ s : UIState, (resetForm s).urlInputValue = s.urlInputValue ∧
      (resetForm s).statusHidden = true ∧ (resetForm s).progressHidden = true ∧
      (resetForm s).songInfoHidden = true ∧ (resetForm s).inputErrorVisible = false ∧
      (resetForm s).urlInputErrorClass = false ∧ (resetForm s).inputHintHidden = false) ∧
    (∀ url oracle endpoint s,
      (startDownload url oracle endpoint s).1.urlInputValue = s.urlInputValue) := by
  constructor
  · intro s
    exact ⟨rfl, rfl, rfl, rfl, rfl, rfl, rfl⟩
  · intro url oracle endpoint s
    have hurl := fetchLoop_keeps_url oracle 3 0 (showProgress "Fetching video info..." 5
        (hideSongInfo (hideStatus (setProcessingState true s))))
    rcases hfl : fetchLoop oracle 0 3 (showProgress "Fetching video info..." 5
        (hideSongInfo (hideStatus (setProcessingState true s)))) with ⟨res, s1, tr⟩
    rw [hfl] at hurl
    simp only [showProgress, hideSongInfo, hideStatus, setProcessingState] at hurl
    cases res with
    | error m =>
      simp only [startDownload, hfl]
      simp [setProcessingState, hideSongInfo, hideProgress, showStatus, hurl]
    | ok b =>
      simp only [startDownload, hfl]
      simp [setProcessingState, resetForm, clearInputError, hideSongInfo, hideProgress,
            hideStatus, showStatus, showProgress, showSongInfo, hurl]
      split <;> rfl

/-- C9: triggerDownload's completion promise always resolves after the
fixed 1500 ms delay and never rejects, whatever the download endpoint
does; the hidden iframe is removed only after the longer 121500 ms
delay; and the whole controller run is pointwise independent of the
endpoint's behaviour, so no failure of the download step is observed by
the controller or surfaced to the user. -/
theorem triggerDownload_contract :
    (∀ url title e1 e2, triggerDownload url title e1 = triggerDownload url title e2) ∧
    (∀ url title e,
      (triggerDownload url title e).outcome = Except.ok () ∧
      (triggerDownload url title e).resolveAtMs = 1500 ∧
      (triggerDownload url title e).removeAtMs = 121500 ∧
      (triggerDownload url title e).resolveAtMs < (triggerDownload url title e).removeAtMs ∧
      (triggerDownload url title e).frameInserted = true) ∧
    (∀ url oracle s e1 e2, startDownload url oracle e1 s = startDownload url oracle e2 s) := by
  refine ⟨fun _ _ _ _ => rfl,
          fun _ _ _ => ⟨rfl, rfl, rfl, by simp [triggerDownload], rfl⟩, ?_⟩
  intro url oracle s e1 e2
  simp only [startDownload, triggerDownload]

/-- No two adjacent whitespace characters (the relation used to state
that whitespace runs were collapsed). -/
def NotBothSpace (a b : Char) : Prop := ¬(isJsSpace a = true ∧ isJsSpace b = true)

/-- Is the first character of the list whitespace? -/
def headSpace : List Char → Bool
  | [] => false
  | c :: _ => isJsSpace c

/-- Unicode Cc control characters: U+0000 to U+001F and U+007F to
U+009F. -/
def isControlChar (c : Char) : Bool :=
  c.toNat ≤ 0x1f || (0x7f ≤ c.toNat && c.toNat ≤ 0x9f)

theorem headSpace_dropWhile : ∀ l : List Char, headSpace (l.dropWhile isJsSpace) = false
  | [] => rfl
  | c :: t => by
    rw [List.dropWhile_cons]
    by_cases h : isJsSpace c = true
    · simp only [h, if_true]
      exact headSpace_dropWhile t
    · have h2 : isJsSpace c = false := by simpa using h
      simp [h2, headSpace]

theorem dropTrailWS_pre (l : List Char) : dropTrailWS l <+: l := by
  have h : l.reverse.dropWhile isJsSpace <:+ l.reverse := List.dropWhile_suffix isJsSpace
  have h2 : (l.reverse.dropWhile isJsSpace).reverse.reverse <:+ l.reverse := by
    rwa [List.reverse_reverse]
  exact List.reverse_suffix.mp h2

theorem headSpace_of_pre {m l : List Char} (h : m <+: l) (hl : headSpace l = false) :
    headSpace m = false := by
  obtain ⟨t, ht⟩ := h
  cases m with
  | nil => rfl
  | cons c m2 =>
    rw [← ht] at hl
    simpa [headSpace] using hl

theorem not_space_of_head {l : List Char} {y : Char} (h : l.head? = some y)
    (hl : headSpace l = false) : isJsSpace y = false := by
  cases l with
  | nil => simp at h
  | cons c t =>
    simp at h
    subst h
    simpa [headSpace] using hl

theorem collapseWS_headSpace {b : Char} {t : List Char} (hb : isJsSpace b = false) :
    headSpace (collapseWS (b :: t)) = false := by
  cases t with
  | nil => simp [collapseWS, hb, headSpace]
  | cons c t2 => simp [collapseWS, hb, headSpace]

theorem chain_collapseWS : ∀ l : List Char, List.Chain' NotBothSpace (collapseWS l)
  | [] => List.chain'_nil
  | [c] => by simp [collapseWS]
  | a :: b :: t => by
    by_cases hab : (isJsSpace a && isJsSpace b) = true
    · rw [show collapseWS (a :: b :: t) = collapseWS (b :: t) from by simp [collapseWS, hab]]
      exact chain_collapseWS (b :: t)
    · have hrec := chain_collapseWS (b :: t)
      have hcw : collapseWS (a :: b :: t) =
          (if isJsSpace a then ' ' else a) :: collapseWS (b :: t) := by
        simp [collapseWS, hab]
      rw [hcw, List.chain'_cons']
      refine ⟨?_, hrec⟩
      intro y hy
      rw [Option.mem_def] at hy
      by_cases ha : isJsSpace a = true
      · have hb2 : isJsSpace b = false := by
          simp [ha] at hab
          exact hab
        have hyf : isJsSpace y = false := not_space_of_head hy (collapseWS_headSpace hb2)
        simp [NotBothSpace, ha, hyf]
      · have ha2 : isJsSpace a = false := by simpa using ha
        simp [NotBothSpace, ha2]

theorem mem_collapseWS : ∀ (l : List Char) (c : Char),
    c ∈ collapseWS l → c = ' ' ∨ (c ∈ l ∧ isJsSpace c = false)
  | [], c, h => by simp [collapseWS] at h
  | [a], c, h => by
    by_cases ha : isJsSpace a = true
    · simp [collapseWS, ha] at h
      exact Or.inl h
    · have ha2 : isJsSpace a = false := by simpa using ha
      simp [collapseWS, ha2] at h
      subst h
      exact Or.inr ⟨by simp, ha2⟩
  | a :: b :: t, c, h => by
    by_cases hab : (isJsSpace a && isJsSpace b) = true
    · rw [show collapseWS (a :: b :: t) = collapseWS (b :: t) from by
        simp [collapseWS, hab]] at h
      rcases mem_collapseWS (b :: t) c h with h1 | h2
      · exact Or.inl h1
      · exact Or.inr ⟨List.mem_cons_of_mem a h2.1, h2.2⟩
    · rw [show collapseWS (a :: b :: t) =
          (if isJsSpace a then ' ' else a) :: collapseWS (b :: t) from by
        simp [collapseWS, hab], List.mem_cons] at h
      rcases h with h1 | h2
      · by_cases ha : isJsSpace a = true
        · simp [ha] at h1
          exact Or.inl h1
        · have ha2 : isJsSpace a = false := by simpa using ha
          simp [ha2] at h1
          subst h1
          exact Or.inr ⟨by simp, ha2⟩
      · rcases mem_collapseWS (b :: t) c h2 with h3 | h4
        · exact Or.inl h3
        · exact Or.inr ⟨List.mem_cons_of_mem a h4.1, h4.2⟩

theorem chain_jsTrimL {l : List Char} (h : List.Chain' NotBothSpace l) :
    List.Chain' NotBothSpace (jsTrimL l) := by
  have h1 : List.Chain' NotBothSpace (l.dropWhile isJsSpace) :=
    h.suffix (List.dropWhile_suffix isJsSpace)
  have h2 : List.Chain' (flip NotBothSpace) (l.dropWhile isJsSpace).reverse :=
    List.chain'_reverse.mpr h1
  have h3 := h2.suffix (List.dropWhile_suffix isJsSpace)
  exact List.chain'_reverse.mpr h3

theorem length_jsTrimL_le (l : List Char) : (jsTrimL l).length ≤ l.length := by
  have h1 : (jsTrimL l).length ≤ (l.dropWhile isJsSpace).length := by
    simp only [jsTrimL, dropTrailWS]
    rw [List.length_reverse]
    calc ((l.dropWhile isJsSpace).reverse.dropWhile isJsSpace).length
        ≤ (l.dropWhile isJsSpace).reverse.length :=
          (List.dropWhile_sublist isJsSpace).length_le
      _ = (l.dropWhile isJsSpace).length := List.length_reverse _
  exact le_trans h1 (List.dropWhile_sublist isJsSpace).length_le

theorem mem_of_jsTrimL {l : List Char} {c : Char} (h : c ∈ jsTrimL l) : c ∈ l := by
  simp only [jsTrimL, dropTrailWS] at h
  rw [List.mem_reverse] at h
  have h2 := (List.dropWhile_sublist isJsSpace).subset h
  rw [List.mem_reverse] at h2
  exact (List.dropWhile_sublist isJsSpace).subset h2

/-- Output-shape properties of the sanitizing pipeline on a character
list: bounded length, every character either the single space produced
by the collapsing replace or a non-whitespace character of the input,
collapsed whitespace, no leading and no trailing whitespace. -/
theorem sanitized_props (l : List Char) :
    (jsTrimL ((collapseWS l).take 100)).length ≤ 100 ∧
    (∀ c, c ∈ jsTrimL ((collapseWS l).take 100) →
      c = ' ' ∨ (c ∈ l ∧ isJsSpace c = false)) ∧
    List.Chain' NotBothSpace (jsTrimL ((collapseWS l).take 100)) ∧
    headSpace (jsTrimL ((collapseWS l).take 100)) = false ∧
    headSpace (jsTrimL ((collapseWS l).take 100)).reverse = false := by
  refine ⟨?_, ?_, ?_, ?_, ?_⟩
  · calc (jsTrimL ((collapseWS l).take 100)).length
        ≤ ((collapseWS l).take 100).length := length_jsTrimL_le _
      _ ≤ 100 := by simp [List.length_take]
  · intro c hc
    have hc2 : c ∈ (collapseWS l).take 100 := mem_of_jsTrimL hc
    have hc3 : c ∈ collapseWS l := (List.take_sublist 100 _).subset hc2
    exact mem_collapseWS l c hc3
  · exact chain_jsTrimL ((chain_collapseWS l).take 100)
  · exact headSpace_of_pre (dropTrailWS_pre _) (headSpace_dropWhile _)
  · simp only [jsTrimL, dropTrailWS, List.reverse_reverse]
    exact headSpace_dropWhile _

/-- C10 counterexample: DEL (U+007F) is a Unicode control character,
yet sanitizeFilename keeps it, because the removed class stops at
U+001F; so the output can contain a control character. -/
theorem sanitizeFilename_control_char_counterexample :
    sanitizeFilename (some "a\x7fb") = "a\x7fb" ∧
    ∃ c, c ∈ (sanitizeFilename (some "a\x7fb")).data ∧ isControlChar c = true := by
  exact ⟨by decide, '\x7f', by decide, by decide⟩

/-- C10 (amended): for every input, sanitizeFilename returns a
non-empty string of length at most 100 that contains none of the nine
forbidden punctuation characters and no character in the control range
U+0000 to U+001F (characters above that range, such as U+007F, may
remain), has its whitespace runs collapsed to single spaces (no two
adjacent whitespace characters, and every remaining whitespace
character is the space character itself) and no leading or trailing
whitespace, and is the fixed name download when the input is missing or
reduces to nothing. -/
theorem sanitizeFilename_spec :
    ∀ o : Option String,
      sanitizeFilename o ≠ "" ∧
      (sanitizeFilename o).length ≤ 100 ∧
      (∀ c, c ∈ (sanitizeFilename o).data → forbiddenChar c = false) ∧
      List.Chain' NotBothSpace (sanitizeFilename o).data ∧
      (∀ c, c ∈ (sanitizeFilename o).data → isJsSpace c = true → c = ' ') ∧
      headSpace (sanitizeFilename o).data = false ∧
      headSpace (sanitizeFilename o).data.reverse = false ∧
      sanitizeFilename none = "download" ∧
      sanitizeFilename (some "") = "download" ∧
      sanitizeFilename (some " ?* ") = "download" := by
  have hdl : ("download" : String) ≠ "" ∧ ("download" : String).length ≤ 100 ∧
      (∀ c, c ∈ ("download" : String).data → forbiddenChar c = false) ∧
      List.Chain' NotBothSpace ("download" : String).data ∧
      (∀ c, c ∈ ("download" : String).data → isJsSpace c = true → c = ' ') ∧
      headSpace ("download" : String).data = false ∧
      headSpace ("download" : String).data.reverse = false := by
    refine ⟨by decide, by decide, by decide, ?_, by decide, by decide, by decide⟩
    simp [List.chain'_cons, NotBothSpace, isJsSpace]
  intro o
  match o with
  | none =>
    exact ⟨hdl.1, hdl.2.1, hdl.2.2.1, hdl.2.2.2.1, hdl.2.2.2.2.1, hdl.2.2.2.2.2.1,
           hdl.2.2.2.2.2.2, rfl, by decide, by decide⟩
  | some t =>
    by_cases ht : t = ""
    · subst ht
      exact ⟨hdl.1, hdl.2.1, hdl.2.2.1, hdl.2.2.2.1, hdl.2.2.2.2.1, hdl.2.2.2.2.2.1,
             hdl.2.2.2.2.2.2, rfl, by decide, by decide⟩
    · have hval : sanitizeFilename (some t) =
          if jsTrimL ((collapseWS (t.data.filter (fun c => !forbiddenChar c))).take 100) = []
          then "download"
          else String.mk
            (jsTrimL ((collapseWS (t.data.filter (fun c => !forbiddenChar c))).take 100)) := by
        simp [sanitizeFilename, ht]
      by_cases hc4 : jsTrimL ((collapseWS (t.data.filter (fun c => !forbiddenChar c))).take 100) = []
      · rw [hval, if_pos hc4]
        exact ⟨hdl.1, hdl.2.1, hdl.2.2.1, hdl.2.2.2.1, hdl.2.2.2.2.1, hdl.2.2.2.2.2.1,
               hdl.2.2.2.2.2.2, rfl, by decide, by decide⟩
      · rw [hval, if_neg hc4]
        have hp := sanitized_props (t.data.filter (fun c => !forbiddenChar c))
        refine ⟨?_, hp.1, ?_, hp.2.2.1, ?_, hp.2.2.2.1, hp.2.2.2.2, rfl, by decide,
                by decide⟩
        · intro hcon
          apply hc4
          have hdata : (String.mk (jsTrimL ((collapseWS
              (t.data.filter (fun c => !forbiddenChar c))).take 100))).data =
              ("" : String).data := by rw [hcon]
          simpa using hdata
        · intro c hc
          rcases hp.2.1 c hc with h1 | h2
          · rw [h1]; decide
          · have h3 := h2.1
            rw [List.mem_filter] at h3
            simpa using h3.2
        · intro c hc hsp
          rcases hp.2.1 c hc with h1 | h2
          · exact h1
          · rw [h2.2] at hsp
            exact absurd hsp (by decide)

theorem sanitizeFilename_spec_witness : forbiddenChar 'S' = false :=
  (sanitizeFilename_spec (some "<Song>")).2.2.1 'S' (by decide)
